import Mathlib

/-!
A verification development for the `roadii` device-topology resolver
(`src/main.rs`).  The program resolves a Wii guitar accessory, given the
kernel name of its input device, into three kernel event-node endpoints
(wiimote, guitar, accelerometer) by walking the udev device tree, and then
hands the three device-node paths to an external `evsieve` command.

The udev device tree is modelled as a list of `Device` records, following
the boundary specification of the query interface (§4.2 of the design
document): each device has a system path (its stable identity key), a
system name, an optional subsystem, an optional driver, an optional parent
back-reference, a string attribute map, and an optional device-node path.
Enumerator queries are modelled as filters over the tree:
`match_sysname` filters by exact system name; `match_parent` combined with
`match_subsystem` keeps devices whose system path lies at-or-under the
parent's system path (libudev's parent matching is path-prefix based, and
the design document notes the enumeration may return deeper descendants),
with the requested subsystem.

Rust `Result` values are modelled with an `Outcome` type that also has an
`aborted` constructor for a Rust panic (the sibling filter unwraps
`device.parent()` with `expect`, which can panic).
-/

/-- Characterwise substring containment helper (model of Rust
`str::contains`), searching for `pat` at every suffix position. -/
def charsContain (pat : List Char) : List Char → Bool
  | [] => pat.isEmpty
  | c :: rest => pat.isPrefixOf (c :: rest) || charsContain pat rest

/-- Model of Rust `str::contains` on strings. -/
def strContains (s pat : String) : Bool := charsContain pat.toList s.toList

/-- Model of Rust `str::ends_with` on strings. -/
def strEndsWith (s pat : String) : Bool := pat.toList.isSuffixOf s.toList

/-- Model of Rust `str::starts_with` on strings. -/
def strStartsWith (s pat : String) : Bool := pat.toList.isPrefixOf s.toList

/-- A udev device handle, as consumed through the query-interface boundary:
system path (stable identity), system name, optional subsystem, optional
driver, optional parent back-reference (by system path), the attribute
map, and the optional device-node path. -/
structure Device where
  syspath : String
  sysname : String
  subsystem : Option String
  driver : Option String
  parentPath : Option String
  attrs : List (String × String)
  devnode : Option String
deriving DecidableEq

/-- A udev device tree: the list of all devices, in enumeration order. -/
abbrev DevTree := List Device

/-- Model of `Device::attribute_value`: look up a string attribute. -/
def lookupAttr (d : Device) (key : String) : Option String :=
  (d.attrs.find? (fun kv => kv.1 == key)).map (fun kv => kv.2)

/-- Model of `Device::parent`: follow the parent back-reference and look the
parent up in the tree (repeated lookups yield an equivalent handle). -/
def parentOf (tree : DevTree) (d : Device) : Option Device :=
  d.parentPath.bind (fun pp => tree.find? (fun e => e.syspath == pp))

/-- Path-prefix test: `p ++ "/"` is a prefix of `s`. -/
def strIsPrefixOfPath (p s : String) : Bool :=
  (p ++ "/").toList.isPrefixOf s.toList

/-- Parent matching used by the enumerator (`match_parent`): a device
matches when its system path is the parent's, or lies strictly under it.
The design document notes this enumeration is not guaranteed to contain
only direct children, which is why the resolver filters afterwards. -/
def underParent (p d : Device) : Bool :=
  d.syspath == p.syspath || strIsPrefixOfPath p.syspath d.syspath

/-- Model of an enumerator with `match_sysname`: all devices whose system
name exactly equals the requested name, in tree order. -/
def scanBySysname (tree : DevTree) (name : String) : List Device :=
  tree.filter (fun d => d.sysname == name)

/-- Model of an enumerator with `match_parent` and `match_subsystem`:
devices at-or-under the given parent with the given subsystem. -/
def scanByParentSubsystem (tree : DevTree) (p : Device) (sub : String) : List Device :=
  tree.filter (fun d => underParent p d && d.subsystem == some sub)

/-- The failure cases of `Wiitar::from_kernel_name_with_udev`, one
constructor per `bail!`/`context` site in `src/main.rs`. -/
inductive Err where
  /-- `couldn't find a single matching device for ...` (line 54). -/
  | ambiguousOrMissingDevice
  /-- `This device has no name? That's very strange.` (line 69). -/
  | deviceHasNoName
  /-- `That's a weird looking Wii Guitar ...` (line 76). -/
  | weirdWiiGuitar
  /-- `guitar didn't have a parent device` (line 85). -/
  | guitarHadNoParent
  /-- `The parent of the wiitar didn't have a subsystem` (line 91). -/
  | parentHadNoSubsystem
  /-- `The parent of the Wiitar is not a HID device?` (line 94). -/
  | parentNotHid
  /-- `The parent of the wiitar didn't have a driver` (line 99). -/
  | parentHadNoDriver
  /-- `The parent of the Wiitar is an HID device but not a Wiimote?` (line 102). -/
  | parentNotWiimote
  /-- `didn't find a child event device` (line 208). -/
  | noChildEventDevice
  /-- `Failed to find wiimote, guitar and accelerometer input devices` (line 179). -/
  | failedToFindAllInputs
deriving DecidableEq

/-- The error message text attached to each failure in `src/main.rs`
(format arguments elided; the text is otherwise verbatim). -/
def Err.message : Err → String
  | .ambiguousOrMissingDevice => "couldn't find a single matching device for the kernel name"
  | .deviceHasNoName => "This device has no name? That's very strange."
  | .weirdWiiGuitar => "That's a weird looking Wii Guitar (are the udev rules set right?)"
  | .guitarHadNoParent => "guitar didn't have a parent device"
  | .parentHadNoSubsystem => "The parent of the wiitar didn't have a subsystem"
  | .parentNotHid => "The parent of the Wiitar is not a HID device?"
  | .parentHadNoDriver => "The parent of the wiitar didn't have a driver"
  | .parentNotWiimote => "The parent of the Wiitar is an HID device but not a Wiimote?"
  | .noChildEventDevice => "didn't find a child event device"
  | .failedToFindAllInputs => "Failed to find wiimote, guitar and accelerometer input devices"

/-- The result of running a fallible, possibly panicking Rust function:
`ok` and `err` model `Result`, `aborted` models a process abort via the
Rust panic macro. -/
inductive Outcome (eps alpha : Type) where
  | ok (a : alpha)
  | err (e : eps)
  | aborted (msg : String)
deriving DecidableEq

/-- The `Wiitar` struct: three optional endpoint slots. -/
structure Wiitar where
  wiimote : Option Device
  guitar : Option Device
  accel : Option Device
deriving DecidableEq

/-- `Default::default()` for `Wiitar`: all slots empty. -/
def Wiitar.empty : Wiitar := ⟨none, none, none⟩

/-- `Wiitar::is_complete`: all three slots are populated. -/
def Wiitar.is_complete (w : Wiitar) : Bool :=
  w.wiimote.isSome && w.guitar.isSome && w.accel.isSome

/-- The loop body of `Wiitar::get_event_device_from_input_device_with_udev`
over the enumerated children: skip the device itself (by system path),
return the first remaining child whose system name starts with `event`,
fail with `noChildEventDevice` when the list is exhausted. -/
def findEventChild (device : Device) : List Device → Except Err Device
  | [] => .error .noChildEventDevice
  | child :: rest =>
    if child.syspath == device.syspath then findEventChild device rest
    else if strStartsWith child.sysname "event" then .ok child
    else findEventChild device rest

/-- `Wiitar::get_event_device_from_input_device_with_udev`: enumerate
devices with `match_parent device` and `match_subsystem "input"` and find
the first event child. -/
def get_event_device_from_input_device_with_udev (tree : DevTree) (device : Device) :
    Except Err Device :=
  findEventChild device (scanByParentSubsystem tree device "input")

/-- The sibling filter closure (lines 129-133 of `src/main.rs`):
`device.syspath() != wiimote.syspath() && device.parent().expect("device
had no parent").syspath() == wiimote.syspath()`.  `some b` is the boolean
the closure returns; `none` is the panic of the `expect` (reached only
when the first conjunct already held, because `&&` short-circuits). -/
def siblingFilter (tree : DevTree) (wiimote d : Device) : Option Bool :=
  if d.syspath == wiimote.syspath then some false
  else
    match parentOf tree d with
    | none => none
    | some p => some (p.syspath == wiimote.syspath)

/-- The sibling loop of `Wiitar::from_kernel_name_with_udev` (lines
126-175): walk the enumerated candidates in order; apply `siblingFilter`
lazily (a `none` filter result aborts like the Rust `expect` panic);
classify each survivor by its `name` attribute against the three constant
strings; on a first match for a role, descend to the event device and fill
the slot; when an arm ran without `continue`, break out as soon as the set
is complete; after the list (lines 178-180), fail with
`failedToFindAllInputs` when the set is incomplete. -/
def fillSlots (tree : DevTree) (wiimote : Device) : List Device → Wiitar → Outcome Err Wiitar
  | [], inputs =>
    if inputs.is_complete then .ok inputs else .err .failedToFindAllInputs
  | device :: rest, inputs =>
    match siblingFilter tree wiimote device with
    | none => .aborted "device had no parent"
    | some false => fillSlots tree wiimote rest inputs
    | some true =>
      match lookupAttr device "name" with
      | none => fillSlots tree wiimote rest inputs
      | some os_name =>
        if os_name == "Nintendo Wii Remote" then
          if inputs.wiimote.isNone then
            match get_event_device_from_input_device_with_udev tree device with
            | .error e => .err e
            | .ok ev =>
              let inputs' : Wiitar := { inputs with wiimote := some ev }
              if inputs'.is_complete then .ok inputs' else fillSlots tree wiimote rest inputs'
          else if inputs.is_complete then .ok inputs else fillSlots tree wiimote rest inputs
        else if os_name == "Nintendo Wii Remote Guitar" then
          if inputs.guitar.isNone then
            match get_event_device_from_input_device_with_udev tree device with
            | .error e => .err e
            | .ok ev =>
              let inputs' : Wiitar := { inputs with guitar := some ev }
              if inputs'.is_complete then .ok inputs' else fillSlots tree wiimote rest inputs'
          else if inputs.is_complete then .ok inputs else fillSlots tree wiimote rest inputs
        else if os_name == "Nintendo Wii Remote Accelerometer" then
          if inputs.accel.isNone then
            match get_event_device_from_input_device_with_udev tree device with
            | .error e => .err e
            | .ok ev =>
              let inputs' : Wiitar := { inputs with accel := some ev }
              if inputs'.is_complete then .ok inputs' else fillSlots tree wiimote rest inputs'
          else if inputs.is_complete then .ok inputs else fillSlots tree wiimote rest inputs
        else fillSlots tree wiimote rest inputs

/-- Lines 83-183 of `Wiitar::from_kernel_name_with_udev`: fetch and
validate the parent (`NoParent`, missing subsystem, subsystem must be
`hid`, missing driver, driver must be `wiimote`), then enumerate and
process the siblings starting from an empty `Wiitar`. -/
def checkParentAndSiblings (tree : DevTree) (guitar : Device) : Outcome Err Wiitar :=
  match parentOf tree guitar with
  | none => .err .guitarHadNoParent
  | some wiimote =>
    match wiimote.subsystem with
    | none => .err .parentHadNoSubsystem
    | some sub =>
      if sub != "hid" then .err .parentNotHid
      else
        match wiimote.driver with
        | none => .err .parentHadNoDriver
        | some drv =>
          if drv != "wiimote" then .err .parentNotWiimote
          else fillSlots tree wiimote (scanByParentSubsystem tree wiimote "input") Wiitar.empty

/-- Lines 63-78 of `Wiitar::from_kernel_name_with_udev`: read the matched
device's `name` attribute (missing: `deviceHasNoName`); the value must
contain `"Wii"` and end with `"Guitar"` (`weirdWiiGuitar` otherwise);
then continue with the parent checks. -/
def checkGuitarName (tree : DevTree) (guitar : Device) : Outcome Err Wiitar :=
  match lookupAttr guitar "name" with
  | none => .err .deviceHasNoName
  | some nm =>
    if !strContains nm "Wii" || !strEndsWith nm "Guitar" then .err .weirdWiiGuitar
    else checkParentAndSiblings tree guitar

/-- `Wiitar::from_kernel_name_with_udev` (lines 38-183): enumerate devices
matching the kernel name; unless exactly one matches, fail with
`ambiguousOrMissingDevice`; then validate the device, its parent, and
resolve the three endpoint slots from the siblings. -/
def from_kernel_name_with_udev (tree : DevTree) (kernel_name : String) : Outcome Err Wiitar :=
  match scanBySysname tree kernel_name with
  | [guitar] => checkGuitarName tree guitar
  | _ => .err .ambiguousOrMissingDevice

/-- The errors `main` (lines 216-292) can raise at the boundary before the
external command is executed: a resolution failure, a missing slot
(`anyhow!("missing ...")`), or a resolved device without a device node
(`anyhow!("failed to retrieve ... devnode")`). -/
inductive MainErr where
  | resolve (e : Err)
  | missingWiimote
  | wiimoteNoDevnode
  | missingGuitar
  | guitarNoDevnode
  | missingAccel
  | accelNoDevnode
deriving DecidableEq

/-- The device-node extraction `main` performs while building the
`evsieve` command (lines 222-281): run the resolver, then for the wiimote,
guitar and accelerometer slots in that order take the slot
(`ok_or(anyhow!(...))?`) and its device node (`ok_or(anyhow!(...))?`).
The returned triple is exactly the three `--input` paths handed to the
external command; any failure happens before the command is executed. -/
def mainCommandInputs (tree : DevTree) (kernel_name : String) :
    Outcome MainErr (String × String × String) :=
  match from_kernel_name_with_udev tree kernel_name with
  | .aborted m => .aborted m
  | .err e => .err (.resolve e)
  | .ok parts =>
    match parts.wiimote with
    | none => .err .missingWiimote
    | some w =>
      match w.devnode with
      | none => .err .wiimoteNoDevnode
      | some pw =>
        match parts.guitar with
        | none => .err .missingGuitar
        | some g =>
          match g.devnode with
          | none => .err .guitarNoDevnode
          | some pg =>
            match parts.accel with
            | none => .err .missingAccel
            | some a =>
              match a.devnode with
              | none => .err .accelNoDevnode
              | some pa => .ok (pw, pg, pa)

/-! ### Concrete device trees used as witnesses and counterexamples -/

/-- The wiimote HID parent device of the nominal tree. -/
def devW : Device := ⟨"/h", "hid1", some "hid", some "wiimote", none, [], none⟩

/-- Sibling input device named `Nintendo Wii Remote`. -/
def devS1 : Device :=
  ⟨"/h/input18", "input18", some "input", none, some "/h", [("name", "Nintendo Wii Remote")], none⟩

/-- Event child of `devS1`. -/
def devE7 : Device :=
  ⟨"/h/input18/event7", "event7", some "input", none, some "/h/input18", [], some "/dev/input/event7"⟩

/-- Sibling input device named `Nintendo Wii Remote Guitar`; its kernel
name `input19` is the resolver input of the nominal scenario. -/
def devS2 : Device :=
  ⟨"/h/input19", "input19", some "input", none, some "/h", [("name", "Nintendo Wii Remote Guitar")], none⟩

/-- Event child of `devS2`. -/
def devE8 : Device :=
  ⟨"/h/input19/event8", "event8", some "input", none, some "/h/input19", [], some "/dev/input/event8"⟩

/-- Sibling input device named `Nintendo Wii Remote Accelerometer`. -/
def devS3 : Device :=
  ⟨"/h/input20", "input20", some "input", none, some "/h", [("name", "Nintendo Wii Remote Accelerometer")], none⟩

/-- Event child of `devS3`. -/
def devE9 : Device :=
  ⟨"/h/input20/event9", "event9", some "input", none, some "/h/input20", [], some "/dev/input/event9"⟩

/-- The nominal device tree of the design document's scenario: one HID
wiimote parent with three classifiable input siblings, each with one
event-node child. -/
def goodTree : DevTree := [devW, devS1, devE7, devS2, devE8, devS3, devE9]

/-- A parent device that lacks a subsystem. -/
def devP3 : Device := ⟨"/h", "hid1", none, some "wiimote", none, [], none⟩

/-- A valid guitar accessory device pointing at `devP3`. -/
def devG3 : Device :=
  ⟨"/h/g", "input19", some "input", none, some "/h", [("name", "Nintendo Wii Remote Guitar")], none⟩

/-- Tree whose accessory parent has no subsystem. -/
def noSubTree : DevTree := [devP3, devG3]

/-- The nominal tree with the accelerometer sibling removed. -/
def treeMissingAccel : DevTree := [devW, devS1, devE7, devS2, devE8]

/-- The nominal tree with the wiimote sibling removed. -/
def treeMissingWiimote : DevTree := [devW, devS2, devE8, devS3, devE9]

/-- An input device without any parent back-reference. -/
def orphanDev : Device := ⟨"/h/bad", "inputBad", some "input", none, none, [], none⟩

/-! ### C1: zero or several kernel-name matches -/

/-- C1: whenever the kernel-name query yields zero matches or more than
one match, resolution fails with the ambiguous-or-missing-device error
(there is no pick-first fallback), and the error return carries no
`Wiitar`, so no partial endpoint set is produced. -/
theorem claim1_ambiguous_or_missing (tree : DevTree) (kernel_name : String)
    (h : (scanBySysname tree kernel_name).length ≠ 1) :
    from_kernel_name_with_udev tree kernel_name = .err .ambiguousOrMissingDevice ∧
    ∀ w : Wiitar, from_kernel_name_with_udev tree kernel_name ≠ .ok w := by
  have hmain : from_kernel_name_with_udev tree kernel_name = .err .ambiguousOrMissingDevice := by
    unfold from_kernel_name_with_udev
    rcases hs : scanBySysname tree kernel_name with _ | ⟨a, _ | ⟨b, t2⟩⟩
    · rfl
    · rw [hs] at h; simp at h
    · rfl
  refine ⟨hmain, fun w hw => ?_⟩
  rw [hmain] at hw
  exact Outcome.noConfusion hw

/-- Witness for C1: the empty tree has zero matches for `input19`. -/
theorem claim1_witness :
    from_kernel_name_with_udev [] "input19" = .err .ambiguousOrMissingDevice ∧
    ∀ w : Wiitar, from_kernel_name_with_udev [] "input19" ≠ .ok w :=
  claim1_ambiguous_or_missing [] "input19" (by decide)

/-! ### C2: accessory identity validation -/

/-- C2: once the kernel-name query matched exactly one device, resolution
fails with the missing-name error if the `name` attribute is absent;
otherwise it fails with the identity-mismatch error unless the name
contains `"Wii"` and ends with `"Guitar"` (both checks case-sensitive);
when both checks pass it proceeds to the parent lookup
(`checkParentAndSiblings`). -/
theorem claim2_identity_checks (tree : DevTree) (kernel_name : String) (guitar : Device)
    (hscan : scanBySysname tree kernel_name = [guitar]) :
    (lookupAttr guitar "name" = none →
       from_kernel_name_with_udev tree kernel_name = .err .deviceHasNoName) ∧
    ∀ nm, lookupAttr guitar "name" = some nm →
      ((strContains nm "Wii" && strEndsWith nm "Guitar") = false →
         from_kernel_name_with_udev tree kernel_name = .err .weirdWiiGuitar) ∧
      ((strContains nm "Wii" && strEndsWith nm "Guitar") = true →
         from_kernel_name_with_udev tree kernel_name = checkParentAndSiblings tree guitar) := by
  have hrun : from_kernel_name_with_udev tree kernel_name = checkGuitarName tree guitar := by
    unfold from_kernel_name_with_udev
    rw [hscan]
  constructor
  · intro hn
    rw [hrun]
    unfold checkGuitarName
    rw [hn]
  · intro nm hn
    constructor
    · intro hb
      rw [hrun]
      unfold checkGuitarName
      rw [hn]
      simp [← Bool.not_and, hb]
    · intro hb
      rw [hrun]
      unfold checkGuitarName
      rw [hn]
      rw [Bool.and_eq_true] at hb
      simp [hb.1, hb.2]

/-- Witness for C2: on `noSubTree` the identifier `input19` matches
exactly `devG3`, whose name passes both checks, so resolution proceeds to
the parent lookup. -/
theorem claim2_witness :
    from_kernel_name_with_udev noSubTree "input19" = checkParentAndSiblings noSubTree devG3 :=
  ((claim2_identity_checks noSubTree "input19" devG3 (by decide)).2
    "Nintendo Wii Remote Guitar" (by decide)).2 (by decide)

/-! ### Shared lemmas about the sibling loop -/

/-- The sibling filter evaluates to `none` (the `expect` panic of line
131) exactly on candidates whose system path differs from the parent's
and that have no parent. -/
lemma siblingFilter_eq_none_iff (tree : DevTree) (wiimote d : Device) :
    siblingFilter tree wiimote d = none ↔
      ((d.syspath == wiimote.syspath) = false ∧ parentOf tree d = none) := by
  unfold siblingFilter
  by_cases heq : d.syspath = wiimote.syspath
  · simp [heq]
  · cases hp : parentOf tree d <;> simp [heq, hp]

/-- Processing one candidate that fails the filter leaves the loop state
unchanged and continues with the remaining candidates. -/
lemma fillSlots_skip (tree : DevTree) (wiimote d : Device) (rest : List Device)
    (inputs : Wiitar) (hf : siblingFilter tree wiimote d = some false) :
    fillSlots tree wiimote (d :: rest) inputs = fillSlots tree wiimote rest inputs := by
  simp only [fillSlots, hf]

/-- Processing a surviving candidate named `Nintendo Wii Remote` whose
role slot is still empty and whose event descent succeeds stores the
descendant and then breaks if complete, else continues. -/
lemma fillSlots_fill_wiimote (tree : DevTree) (wiimote d : Device) (rest : List Device)
    (inputs : Wiitar) (ev : Device)
    (hf : siblingFilter tree wiimote d = some true)
    (hn : lookupAttr d "name" = some "Nintendo Wii Remote")
    (hslot : inputs.wiimote = none)
    (hev : get_event_device_from_input_device_with_udev tree d = .ok ev) :
    fillSlots tree wiimote (d :: rest) inputs =
      if ({ inputs with wiimote := some ev } : Wiitar).is_complete then
        .ok { inputs with wiimote := some ev }
      else fillSlots tree wiimote rest { inputs with wiimote := some ev } := by
  simp only [fillSlots, hf, hn, hslot, hev, Option.isNone_none, if_true, beq_self_eq_true]

/-- Guitar-role analogue of `fillSlots_fill_wiimote`. -/
lemma fillSlots_fill_guitar (tree : DevTree) (wiimote d : Device) (rest : List Device)
    (inputs : Wiitar) (ev : Device)
    (hf : siblingFilter tree wiimote d = some true)
    (hn : lookupAttr d "name" = some "Nintendo Wii Remote Guitar")
    (hslot : inputs.guitar = none)
    (hev : get_event_device_from_input_device_with_udev tree d = .ok ev) :
    fillSlots tree wiimote (d :: rest) inputs =
      if ({ inputs with guitar := some ev } : Wiitar).is_complete then
        .ok { inputs with guitar := some ev }
      else fillSlots tree wiimote rest { inputs with guitar := some ev } := by
  simp only [fillSlots, hf, hn, hslot, hev, Option.isNone_none, if_true, beq_self_eq_true]
  rw [if_neg (by decide)]

/-- Accelerometer-role analogue of `fillSlots_fill_wiimote`. -/
lemma fillSlots_fill_accel (tree : DevTree) (wiimote d : Device) (rest : List Device)
    (inputs : Wiitar) (ev : Device)
    (hf : siblingFilter tree wiimote d = some true)
    (hn : lookupAttr d "name" = some "Nintendo Wii Remote Accelerometer")
    (hslot : inputs.accel = none)
    (hev : get_event_device_from_input_device_with_udev tree d = .ok ev) :
    fillSlots tree wiimote (d :: rest) inputs =
      if ({ inputs with accel := some ev } : Wiitar).is_complete then
        .ok { inputs with accel := some ev }
      else fillSlots tree wiimote rest { inputs with accel := some ev } := by
  simp only [fillSlots, hf, hn, hslot, hev, Option.isNone_none, if_true, beq_self_eq_true]
  rw [if_neg (by decide), if_neg (by decide)]

/-- Any successful value of the sibling loop has all three slots filled:
the loop only returns `ok` through the early break or the final
completeness check. -/
lemma fillSlots_ok_is_complete (tree : DevTree) (wiimote : Device) :
    ∀ (l : List Device) (inputs w : Wiitar),
      fillSlots tree wiimote l inputs = .ok w → w.is_complete = true := by
  intro l
  induction l with
  | nil =>
    intro inputs w h
    simp only [fillSlots] at h
    split at h
    · injection h with h2
      subst h2
      assumption
    · simp at h
  | cons d rest ih =>
    intro inputs w h
    simp only [fillSlots] at h
    split at h
    · simp at h
    · exact ih _ w h
    · split at h
      · exact ih _ w h
      · split at h
        · split at h
          · split at h
            · simp at h
            · split at h
              · injection h with h2
                subst h2
                assumption
              · exact ih _ w h
          · split at h
            · injection h with h2
              subst h2
              assumption
            · exact ih _ w h
        · split at h
          · split at h
            · split at h
              · simp at h
              · split at h
                · injection h with h2
                  subst h2
                  assumption
                · exact ih _ w h
            · split at h
              · injection h with h2
                subst h2
                assumption
              · exact ih _ w h
          · split at h
            · split at h
              · split at h
                · simp at h
                · split at h
                  · injection h with h2
                    subst h2
                    assumption
                  · exact ih _ w h
              · split at h
                · injection h with h2
                  subst h2
                  assumption
                · exact ih _ w h
            · exact ih _ w h

/-- When every enumerated candidate has a parent, the sibling loop never
reaches the panic branch of the filter. -/
lemma fillSlots_no_abort (tree : DevTree) (wiimote : Device) :
    ∀ (l : List Device), (∀ d ∈ l, (parentOf tree d).isSome) →
      ∀ (inputs : Wiitar) (m : String), fillSlots tree wiimote l inputs ≠ .aborted m := by
  intro l
  induction l with
  | nil =>
    intro _ inputs m h
    simp only [fillSlots] at h
    split at h <;> simp at h
  | cons d rest ih =>
    intro hall inputs m h
    have hd : (parentOf tree d).isSome := hall d (List.mem_cons_self d rest)
    have hrest : ∀ e ∈ rest, (parentOf tree e).isSome :=
      fun e he => hall e (List.mem_cons_of_mem d he)
    simp only [fillSlots] at h
    split at h
    · rename_i hf
      rw [siblingFilter_eq_none_iff] at hf
      rw [hf.2] at hd
      simp at hd
    · exact ih hrest _ m h
    · split at h
      · exact ih hrest _ m h
      · split at h
        · split at h
          · split at h
            · simp at h
            · split at h
              · simp at h
              · exact ih hrest _ m h
          · split at h
            · simp at h
            · exact ih hrest _ m h
        · split at h
          · split at h
            · split at h
              · simp at h
              · split at h
                · simp at h
                · exact ih hrest _ m h
            · split at h
              · simp at h
              · exact ih hrest _ m h
          · split at h
            · split at h
              · split at h
                · simp at h
                · split at h
                  · simp at h
                  · exact ih hrest _ m h
              · split at h
                · simp at h
                · exact ih hrest _ m h
            · exact ih hrest _ m h

/-- Shared: reaching the parent checks once the scan matched exactly one
device and its name passed both identity checks. -/
lemma run_reaches_parent_checks (tree : DevTree) (kernel_name : String)
    (guitar : Device) (nm : String)
    (hscan : scanBySysname tree kernel_name = [guitar])
    (hname : lookupAttr guitar "name" = some nm)
    (hid : (strContains nm "Wii" && strEndsWith nm "Guitar") = true) :
    from_kernel_name_with_udev tree kernel_name = checkParentAndSiblings tree guitar := by
  unfold from_kernel_name_with_udev
  rw [hscan]
  show checkGuitarName tree guitar = checkParentAndSiblings tree guitar
  unfold checkGuitarName
  rw [hname]
  rw [Bool.and_eq_true] at hid
  simp [hid.1, hid.2]

/-! ### C3: parent lookup and validation -/

/-- C3 (amended): after the identity checks, resolution fails with the
no-parent error when the accessory has no parent; with a parent present,
a missing subsystem or driver attribute fails with the corresponding
missing-attribute error, and a present-but-wrong subsystem (not `"hid"`)
or driver (not `"wiimote"`) fails with the corresponding parent-mismatch
error; only when subsystem and driver both match does the sibling phase
start. -/
theorem claim3_parent_checks (tree : DevTree) (kernel_name : String)
    (guitar : Device) (nm : String)
    (hscan : scanBySysname tree kernel_name = [guitar])
    (hname : lookupAttr guitar "name" = some nm)
    (hid : (strContains nm "Wii" && strEndsWith nm "Guitar") = true) :
    (parentOf tree guitar = none →
       from_kernel_name_with_udev tree kernel_name = .err .guitarHadNoParent) ∧
    ∀ wiimote, parentOf tree guitar = some wiimote →
      (wiimote.subsystem = none →
         from_kernel_name_with_udev tree kernel_name = .err .parentHadNoSubsystem) ∧
      ∀ sub, wiimote.subsystem = some sub →
        (sub ≠ "hid" →
           from_kernel_name_with_udev tree kernel_name = .err .parentNotHid) ∧
        (sub = "hid" →
           (wiimote.driver = none →
              from_kernel_name_with_udev tree kernel_name = .err .parentHadNoDriver) ∧
           ∀ drv, wiimote.driver = some drv →
             (drv ≠ "wiimote" →
                from_kernel_name_with_udev tree kernel_name = .err .parentNotWiimote) ∧
             (drv = "wiimote" →
                from_kernel_name_with_udev tree kernel_name =
                  fillSlots tree wiimote (scanByParentSubsystem tree wiimote "input")
                    Wiitar.empty)) := by
  have hrun := run_reaches_parent_checks tree kernel_name guitar nm hscan hname hid
  constructor
  · intro hp
    rw [hrun]
    simp [checkParentAndSiblings, hp]
  · intro wiimote hp
    constructor
    · intro hs
      rw [hrun]
      simp [checkParentAndSiblings, hp, hs]
    · intro sub hs
      constructor
      · intro hne
        rw [hrun]
        simp [checkParentAndSiblings, hp, hs, hne]
      · intro heq
        subst heq
        constructor
        · intro hd
          rw [hrun]
          simp [checkParentAndSiblings, hp, hs, hd]
        · intro drv hd
          constructor
          · intro hne
            rw [hrun]
            simp [checkParentAndSiblings, hp, hs, hd, hne]
          · intro heq
            subst heq
            rw [hrun]
            simp [checkParentAndSiblings, hp, hs, hd]

/-- Counterexample to C3 as stated: on `noSubTree` the accessory's parent
exists but has no subsystem; resolution fails with the missing-subsystem
error, not with either of the parent-mismatch errors the claim requires
for every parent that fails the subsystem/driver equalities. -/
theorem claim3_counterexample :
    from_kernel_name_with_udev noSubTree "input19" = .err .parentHadNoSubsystem ∧
    from_kernel_name_with_udev noSubTree "input19" ≠ .err .parentNotHid ∧
    from_kernel_name_with_udev noSubTree "input19" ≠ .err .parentNotWiimote := by
  refine ⟨by decide, by decide, by decide⟩

/-- Witness for C3 (amended): on the nominal tree the parent passes both
checks and resolution proceeds to the sibling phase. -/
theorem claim3_witness :
    from_kernel_name_with_udev goodTree "input19" =
      fillSlots goodTree devW (scanByParentSubsystem goodTree devW "input") Wiitar.empty := by
  have t := claim3_parent_checks goodTree "input19" devS2 "Nintendo Wii Remote Guitar"
    (by decide) (by decide) (by decide)
  exact ((((t.2 devW (by decide)).2 "hid" (by decide)).2 rfl).2 "wiimote" (by decide)).2 rfl

/-! ### C4: the sibling filter -/

/-- C4: a candidate survives the sibling filter exactly when its system
path differs from the validated parent's and its own parent's system path
equals the validated parent's; a candidate on which the filter evaluates
to false is skipped (the loop state is unchanged and classification never
sees it).  Candidates on which the filter cannot evaluate (no parent)
abort instead, see the totality claim. -/
theorem claim4_sibling_filter (tree : DevTree) (wiimote : Device) :
    (∀ d, siblingFilter tree wiimote d = some true ↔
       (d.syspath ≠ wiimote.syspath ∧
         ∃ p, parentOf tree d = some p ∧ p.syspath = wiimote.syspath)) ∧
    (∀ d rest inputs, siblingFilter tree wiimote d = some false →
       fillSlots tree wiimote (d :: rest) inputs = fillSlots tree wiimote rest inputs) ∧
    (∀ d, siblingFilter tree wiimote d = none ↔
       (d.syspath ≠ wiimote.syspath ∧ parentOf tree d = none)) := by
  refine ⟨?_, fun d rest inputs hf => fillSlots_skip tree wiimote d rest inputs hf, ?_⟩
  · intro d
    unfold siblingFilter
    by_cases heq : d.syspath = wiimote.syspath
    · simp [heq]
    · cases hp : parentOf tree d with
      | none => simp [heq, hp]
      | some p => simp [heq, hp]
  · intro d
    rw [siblingFilter_eq_none_iff]
    simp

/-- Witness for C4: `devE7` is returned by the nominal sibling enumeration
but its parent is `devS1`, not the wiimote, so the loop skips it. -/
theorem claim4_witness :
    fillSlots goodTree devW [devE7] Wiitar.empty = fillSlots goodTree devW [] Wiitar.empty :=
  (claim4_sibling_filter goodTree devW).2.1 devE7 [] Wiitar.empty (by decide)

/-! ### C5: classification of surviving siblings -/

/-- C5: a surviving sibling is classified by exact equality of its `name`
attribute against the three constants; a sibling with no name attribute,
or a name equal to none of the three, is skipped without error; and when
the matched role's slot is already filled the sibling is ignored (first
match in enumeration order wins, no error). -/
theorem claim5_classification (tree : DevTree) (wiimote d : Device) (rest : List Device)
    (inputs : Wiitar) (hf : siblingFilter tree wiimote d = some true) :
    (lookupAttr d "name" = none →
       fillSlots tree wiimote (d :: rest) inputs = fillSlots tree wiimote rest inputs) ∧
    (∀ nm, lookupAttr d "name" = some nm →
       nm ≠ "Nintendo Wii Remote" → nm ≠ "Nintendo Wii Remote Guitar" →
       nm ≠ "Nintendo Wii Remote Accelerometer" →
       fillSlots tree wiimote (d :: rest) inputs = fillSlots tree wiimote rest inputs) ∧
    (inputs.is_complete = false →
      (lookupAttr d "name" = some "Nintendo Wii Remote" → inputs.wiimote.isSome →
         fillSlots tree wiimote (d :: rest) inputs = fillSlots tree wiimote rest inputs) ∧
      (lookupAttr d "name" = some "Nintendo Wii Remote Guitar" → inputs.guitar.isSome →
         fillSlots tree wiimote (d :: rest) inputs = fillSlots tree wiimote rest inputs) ∧
      (lookupAttr d "name" = some "Nintendo Wii Remote Accelerometer" → inputs.accel.isSome →
         fillSlots tree wiimote (d :: rest) inputs = fillSlots tree wiimote rest inputs)) := by
  refine ⟨?_, ?_, ?_⟩
  · intro hn
    simp only [fillSlots, hf, hn]
  · intro nm hn h1 h2 h3
    simp only [fillSlots, hf, hn]
    rw [if_neg (by simp [h1]), if_neg (by simp [h2]), if_neg (by simp [h3])]
  · intro hc
    refine ⟨?_, ?_, ?_⟩
    · intro hn hsome
      obtain ⟨v, hv⟩ := Option.isSome_iff_exists.mp hsome
      simp only [fillSlots, hf, hn, hv, beq_self_eq_true, if_true]
      simp [hc]
    · intro hn hsome
      obtain ⟨v, hv⟩ := Option.isSome_iff_exists.mp hsome
      simp only [fillSlots, hf, hn, hv, beq_self_eq_true, if_true]
      rw [if_neg (by decide)]
      simp [hc]
    · intro hn hsome
      obtain ⟨v, hv⟩ := Option.isSome_iff_exists.mp hsome
      simp only [fillSlots, hf, hn, hv, beq_self_eq_true, if_true]
      rw [if_neg (by decide), if_neg (by decide)]
      simp [hc]

/-- Witness for C5 (tie-breaking): with the wiimote slot already filled by
`devE7`, a second `Nintendo Wii Remote` sibling is ignored without
error. -/
theorem claim5_witness :
    fillSlots goodTree devW [devS1] ⟨some devE7, none, none⟩ =
      fillSlots goodTree devW [] ⟨some devE7, none, none⟩ := by
  have t := claim5_classification goodTree devW devS1 [] ⟨some devE7, none, none⟩ (by decide)
  exact (t.2.2 (by decide)).1 (by decide) (by decide)

/-! ### C6: descent to the event node -/

/-- Shared: the event-descent loop returns the first enumerated child
that is not the device itself (by system path) and whose system name
starts with `event`, and errors exactly when no such child exists. -/
lemma findEventChild_eq_find? (device : Device) (l : List Device) :
    findEventChild device l =
      match l.find? (fun c =>
          !(c.syspath == device.syspath) && strStartsWith c.sysname "event") with
      | some c => .ok c
      | none => .error .noChildEventDevice := by
  induction l with
  | nil => rfl
  | cons c rest ih =>
    by_cases h1 : (c.syspath == device.syspath) = true
    · have hp : (!(c.syspath == device.syspath) && strStartsWith c.sysname "event") = false := by
        rw [h1]
        rfl
      rw [List.find?_cons_of_neg (p := fun c : Device =>
        !(c.syspath == device.syspath) && strStartsWith c.sysname "event") _ (by simp [hp])]
      simp only [findEventChild, h1, if_true]
      exact ih
    · have h1' : (c.syspath == device.syspath) = false := by
        simpa using h1
      by_cases h2 : strStartsWith c.sysname "event" = true
      · have hp : (!(c.syspath == device.syspath) && strStartsWith c.sysname "event") = true := by
          rw [h1', h2]
          rfl
        rw [List.find?_cons_of_pos (p := fun c : Device =>
          !(c.syspath == device.syspath) && strStartsWith c.sysname "event") _ hp]
        simp only [findEventChild, h1', Bool.false_eq_true, if_false, h2, if_true]
      · have h2' : strStartsWith c.sysname "event" = false := by
          simpa using h2
        have hp : (!(c.syspath == device.syspath) && strStartsWith c.sysname "event") = false := by
          rw [h2']
          simp
        rw [List.find?_cons_of_neg (p := fun c : Device =>
          !(c.syspath == device.syspath) && strStartsWith c.sysname "event") _ (by simp [hp])]
        simp only [findEventChild, h1', Bool.false_eq_true, if_false, h2']
        exact ih

/-- C6: the event descent enumerates devices with the sibling as parent
and subsystem `input`, skips candidates whose system path equals the
sibling's own, and returns the first remaining candidate whose short
system name starts with `event`; it fails with the no-event-node error
exactly when no such candidate exists; and on success the descendant
event device — not the sibling itself — is what the loop stores in the
corresponding role slot (shown for all three roles). -/
theorem claim6_event_descent (tree : DevTree) (device : Device) :
    (get_event_device_from_input_device_with_udev tree device =
       match (scanByParentSubsystem tree device "input").find? (fun c =>
           !(c.syspath == device.syspath) && strStartsWith c.sysname "event") with
       | some c => .ok c
       | none => .error .noChildEventDevice) ∧
    (get_event_device_from_input_device_with_udev tree device = .error .noChildEventDevice ↔
       (scanByParentSubsystem tree device "input").find? (fun c =>
           !(c.syspath == device.syspath) && strStartsWith c.sysname "event") = none) ∧
    (∀ wiimote rest inputs ev,
       siblingFilter tree wiimote device = some true →
       get_event_device_from_input_device_with_udev tree device = .ok ev →
       ((lookupAttr device "name" = some "Nintendo Wii Remote" → inputs.wiimote = none →
           fillSlots tree wiimote (device :: rest) inputs =
             if ({ inputs with wiimote := some ev } : Wiitar).is_complete then
               .ok { inputs with wiimote := some ev }
             else fillSlots tree wiimote rest { inputs with wiimote := some ev }) ∧
        (lookupAttr device "name" = some "Nintendo Wii Remote Guitar" → inputs.guitar = none →
           fillSlots tree wiimote (device :: rest) inputs =
             if ({ inputs with guitar := some ev } : Wiitar).is_complete then
               .ok { inputs with guitar := some ev }
             else fillSlots tree wiimote rest { inputs with guitar := some ev }) ∧
        (lookupAttr device "name" = some "Nintendo Wii Remote Accelerometer" →
           inputs.accel = none →
           fillSlots tree wiimote (device :: rest) inputs =
             if ({ inputs with accel := some ev } : Wiitar).is_complete then
               .ok { inputs with accel := some ev }
             else fillSlots tree wiimote rest { inputs with accel := some ev }))) := by
  have hchar := findEventChild_eq_find? device (scanByParentSubsystem tree device "input")
  refine ⟨hchar, ?_, ?_⟩
  · rw [show get_event_device_from_input_device_with_udev tree device =
        findEventChild device (scanByParentSubsystem tree device "input") from rfl, hchar]
    cases hfind : (scanByParentSubsystem tree device "input").find? (fun c =>
        !(c.syspath == device.syspath) && strStartsWith c.sysname "event") with
    | none => simp
    | some c => simp
  · intro wiimote rest inputs ev hf hev
    exact ⟨fun hn hslot => fillSlots_fill_wiimote tree wiimote device rest inputs ev hf hn hslot hev,
      fun hn hslot => fillSlots_fill_guitar tree wiimote device rest inputs ev hf hn hslot hev,
      fun hn hslot => fillSlots_fill_accel tree wiimote device rest inputs ev hf hn hslot hev⟩

/-- Witness for C6: descending from the guitar sibling of the nominal
tree yields its event child `devE8`, and the loop stores `devE8` (not
`devS2`) in the guitar slot. -/
theorem claim6_witness :
    fillSlots goodTree devW [devS2] ⟨some devE7, none, none⟩ =
      fillSlots goodTree devW [] ⟨some devE7, some devE8, none⟩ := by
  have t := (claim6_event_descent goodTree devS2).2.2 devW [] ⟨some devE7, none, none⟩ devE8
    (by decide) rfl
  rw [t.2.1 (by decide) rfl]
  rfl

/-! ### C7: early exit once the set is complete -/

/-- C7: a surviving sibling that fills the last empty slot makes the loop
return the completed set immediately, whatever candidates remain: the
conclusion does not depend on `rest`, so no later sibling is ever
inspected (shown for each role being the one completed last). -/
theorem claim7_early_exit (tree : DevTree) (wiimote d : Device) (inputs : Wiitar) (ev : Device)
    (hf : siblingFilter tree wiimote d = some true) :
    (lookupAttr d "name" = some "Nintendo Wii Remote" → inputs.wiimote = none →
       inputs.guitar.isSome → inputs.accel.isSome →
       get_event_device_from_input_device_with_udev tree d = .ok ev →
       ∀ rest, fillSlots tree wiimote (d :: rest) inputs =
         .ok { inputs with wiimote := some ev }) ∧
    (lookupAttr d "name" = some "Nintendo Wii Remote Guitar" → inputs.guitar = none →
       inputs.wiimote.isSome → inputs.accel.isSome →
       get_event_device_from_input_device_with_udev tree d = .ok ev →
       ∀ rest, fillSlots tree wiimote (d :: rest) inputs =
         .ok { inputs with guitar := some ev }) ∧
    (lookupAttr d "name" = some "Nintendo Wii Remote Accelerometer" → inputs.accel = none →
       inputs.wiimote.isSome → inputs.guitar.isSome →
       get_event_device_from_input_device_with_udev tree d = .ok ev →
       ∀ rest, fillSlots tree wiimote (d :: rest) inputs =
         .ok { inputs with accel := some ev }) := by
  refine ⟨?_, ?_, ?_⟩
  · intro hn hslot hg ha hev rest
    rw [fillSlots_fill_wiimote tree wiimote d rest inputs ev hf hn hslot hev]
    simp [Wiitar.is_complete, hg, ha]
  · intro hn hslot hw ha hev rest
    rw [fillSlots_fill_guitar tree wiimote d rest inputs ev hf hn hslot hev]
    simp [Wiitar.is_complete, hw, ha]
  · intro hn hslot hw hg hev rest
    rw [fillSlots_fill_accel tree wiimote d rest inputs ev hf hn hslot hev]
    simp [Wiitar.is_complete, hw, hg]

/-- Witness for C7: with wiimote and guitar already resolved, the
accelerometer sibling completes the set and the loop returns at once,
never inspecting the later `orphanDev` — a malformed candidate with no
parent that would abort the process if the filter examined it. -/
theorem claim7_witness :
    fillSlots goodTree devW [devS3, orphanDev] ⟨some devE7, some devE8, none⟩ =
      .ok ⟨some devE7, some devE8, some devE9⟩ :=
  (claim7_early_exit goodTree devW devS3 ⟨some devE7, some devE8, none⟩ devE9
    (by decide)).2.2 (by decide) rfl (by decide) (by decide) rfl [orphanDev]

/-! ### C8: exhausted enumeration without a complete set -/

/-- C8 (amended): exhausting the sibling enumeration with an incomplete
set fails with the incomplete-resolution error, whose message is the fixed
string naming all three expected devices — the error does not identify
which role(s) are actually unresolved; conversely the loop only succeeds
with a complete set. -/
theorem claim8_incomplete (tree : DevTree) (wiimote : Device) :
    (∀ inputs : Wiitar, inputs.is_complete = false →
       fillSlots tree wiimote [] inputs = .err .failedToFindAllInputs) ∧
    (∀ (l : List Device) (inputs w : Wiitar),
       fillSlots tree wiimote l inputs = .ok w → w.is_complete = true) ∧
    Err.message .failedToFindAllInputs =
      "Failed to find wiimote, guitar and accelerometer input devices" := by
  refine ⟨?_, fillSlots_ok_is_complete tree wiimote, rfl⟩
  intro inputs hc
  simp [fillSlots, hc]

/-- Counterexample to C8 as stated: two trees that leave different roles
unresolved (only the accelerometer missing in the first, only the wiimote
missing in the second) produce the identical error value, so the failure
cannot be naming which role(s) remain unresolved. -/
theorem claim8_counterexample :
    from_kernel_name_with_udev treeMissingAccel "input19" = .err .failedToFindAllInputs ∧
    from_kernel_name_with_udev treeMissingWiimote "input19" = .err .failedToFindAllInputs := by
  exact ⟨by decide, by decide⟩

/-- Witness for C8 (amended): an exhausted enumeration with only the
accelerometer slot missing fails with the fixed incomplete error. -/
theorem claim8_witness :
    fillSlots goodTree devW [] ⟨some devE7, some devE8, none⟩ =
      .err .failedToFindAllInputs :=
  (claim8_incomplete goodTree devW).1 ⟨some devE7, some devE8, none⟩ (by decide)

/-! ### C9: the boundary with the downstream command builder -/

/-- Sibling whose parent back-reference is the wiimote although its system
path nests under `devT1` — permitted by the query-interface data model,
where the parent is an arbitrary per-device back-reference. -/
def devT1 : Device :=
  ⟨"/h/s1", "inputA", some "input", none, some "/h", [("name", "Nintendo Wii Remote")], none⟩

/-- Sibling nested (by system path) under `devT1` but whose parent
back-reference is the wiimote. -/
def devT2 : Device :=
  ⟨"/h/s1/s2", "inputB", some "input", none, some "/h", [("name", "Nintendo Wii Remote Guitar")], none⟩

/-- Third sibling, accelerometer role. -/
def devT3 : Device :=
  ⟨"/h/s3", "inputC", some "input", none, some "/h", [("name", "Nintendo Wii Remote Accelerometer")], none⟩

/-- The accessory device matched by the kernel name in `overlapTree`. -/
def devG9 : Device :=
  ⟨"/h/g", "input19", some "input", none, some "/h", [("name", "Nintendo Wii Remote Guitar")], none⟩

/-- Event node lying under both `devT1` and `devT2` by system path. -/
def devE12 : Device :=
  ⟨"/h/s1/s2/event7", "event7", some "input", none, some "/h/s1/s2", [], some "/dev/input/event7"⟩

/-- Event node under `devT3`. -/
def devE3 : Device :=
  ⟨"/h/s3/event9", "event9", some "input", none, some "/h/s3", [], some "/dev/input/event9"⟩

/-- A tree on which the wiimote and guitar roles resolve to the same event
device: the event descent accepts any descendant (by path) whose name
starts with `event`, and `devE12` lies under both `devT1` and `devT2`. -/
def overlapTree : DevTree := [devW, devT1, devT2, devT3, devG9, devE12, devE3]

/-- Counterexample to C9 as stated: on `overlapTree` resolution succeeds
and the triple handed to the external command has an identical first and
second component — the delivered data-node paths are not pairwise
distinct, yet the program does not error out before invoking the
command.  (The code never compares the three device-node paths.) -/
theorem claim9_counterexample :
    mainCommandInputs overlapTree "input19" =
      .ok ("/dev/input/event7", "/dev/input/event7", "/dev/input/event9") := by
  decide

/-- C9 (amended): the boundary hands the external command exactly the
three resolved endpoints' device-node paths: when the command inputs are
produced, they are the device nodes of the three resolved slot devices
(each necessarily present); a resolved device without a device node, or
any resolution failure, makes the program error out before the command is
constructed.  Distinctness and non-emptiness of the three paths are not
checked anywhere. -/
theorem claim9_boundary (tree : DevTree) (kernel_name : String) :
    (∀ parts dw dg da pw pg pa,
       from_kernel_name_with_udev tree kernel_name = .ok parts →
       parts.wiimote = some dw → parts.guitar = some dg → parts.accel = some da →
       dw.devnode = some pw → dg.devnode = some pg → da.devnode = some pa →
       mainCommandInputs tree kernel_name = .ok (pw, pg, pa)) ∧
    (∀ parts dw,
       from_kernel_name_with_udev tree kernel_name = .ok parts →
       parts.wiimote = some dw → dw.devnode = none →
       mainCommandInputs tree kernel_name = .err .wiimoteNoDevnode) ∧
    (∀ e, from_kernel_name_with_udev tree kernel_name = .err e →
       mainCommandInputs tree kernel_name = .err (.resolve e)) := by
  refine ⟨?_, ?_, ?_⟩
  · intro parts dw dg da pw pg pa hfrom hw hg ha hdw hdg hda
    simp [mainCommandInputs, hfrom, hw, hg, ha, hdw, hdg, hda]
  · intro parts dw hfrom hw hdw
    simp [mainCommandInputs, hfrom, hw, hdw]
  · intro e hfrom
    simp [mainCommandInputs, hfrom]

/-- Witness for C9 (amended): the nominal tree resolves to the three
event nodes and the command receives their three device-node paths. -/
theorem claim9_witness :
    mainCommandInputs goodTree "input19" =
      .ok ("/dev/input/event7", "/dev/input/event8", "/dev/input/event9") :=
  (claim9_boundary goodTree "input19").1 ⟨some devE7, some devE8, some devE9⟩
    devE7 devE8 devE9 "/dev/input/event7" "/dev/input/event8" "/dev/input/event9"
    (by decide) rfl rfl rfl rfl rfl rfl

/-! ### C10: totality of the sibling filter -/

/-- C10: the sibling filter unwraps a candidate's parent, so an enumerated
candidate with no parent (and a system path different from the validated
parent's, which short-circuits the conjunction) aborts the process rather
than being skipped; under the precondition that every device returned by
the sibling enumeration has a parent, the abort branch is unreachable and
the loop always returns an ordinary result. -/
theorem claim10_filter_totality (tree : DevTree) (wiimote : Device) :
    (∀ d rest inputs, d.syspath ≠ wiimote.syspath → parentOf tree d = none →
       fillSlots tree wiimote (d :: rest) inputs = .aborted "device had no parent") ∧
    (∀ inputs m, (∀ d ∈ scanByParentSubsystem tree wiimote "input", (parentOf tree d).isSome) →
       fillSlots tree wiimote (scanByParentSubsystem tree wiimote "input") inputs ≠
         .aborted m) := by
  constructor
  · intro d rest inputs hne hpar
    have hf : siblingFilter tree wiimote d = none := by
      rw [siblingFilter_eq_none_iff]
      exact ⟨by simp [hne], hpar⟩
    simp only [fillSlots, hf]
  · intro inputs m hall
    exact fillSlots_no_abort tree wiimote _ hall inputs m

/-- Witness for C10: the parentless `orphanDev` aborts the loop. -/
theorem claim10_witness :
    fillSlots [] devW [orphanDev] Wiitar.empty = .aborted "device had no parent" :=
  (claim10_filter_totality [] devW).1 orphanDev [] Wiitar.empty (by decide) rfl
